import Mathlib

set_option autoImplicit false

/-!
Verification of the webhook ingestion and event-reconciliation subsystem of
the SoundHaus backend.

The embedding models, from the source:
  * `apps/backend/services/webhook_service.py` — `WebhookService.validate_signature`,
    `WebhookService.process_event` and the five `_handle_*` event handlers, plus
    `WebhookService.setup_webhook_for_repo`;
  * `apps/backend/models/webhook_models.py` — the four webhook tables;
  * `apps/backend/models/repo_models.py` — the `RepoData` aggregate row;
  * `apps/backend/main.py` — the `POST /api/webhooks/gitea` receiver and the
    `GET /api/webhooks/repo/.../events` read endpoint.

Modelling conventions:
  * Webhook payloads are untyped JSON (`Json`), mirroring the dict-shaped
    payloads in the Python code.  Dictionary access `d.get(k, default)` raises
    `AttributeError` when the receiver is not a dict, `len` raises `TypeError`
    on non-sized values, and slicing raises `TypeError` on non-sliceable
    values, as in Python.
  * The SQLAlchemy session is modelled by the state monad `PyM`; the service
    code calls `db.commit()` on both its success and its exception path and
    never calls `rollback`, so every staged mutation becomes durable and the
    embedding applies mutations to the state eagerly.  An exception raised
    mid-handler therefore keeps the mutations staged before the raise, which
    is exactly what `PyM.tryCatch` does.
  * `datetime.now(timezone.utc)` is an abstract clock value `now : Nat`
    threaded into each call; server-side `func.now()` column defaults use the
    same value.
  * HMAC-SHA256 (`hmac.new(...).hexdigest()`) and `json.loads` are external
    library functions and are passed in as parameters where needed.
-/

namespace SoundHaus

variable {α β : Type}

/-- A raised Python exception; `message` is what `str(e)` yields. -/
inductive PyError where
  | attributeError (msg : String)
  | typeError (msg : String)
deriving DecidableEq, Repr

/-- Python `str(e)` on a raised exception. -/
def PyError.message : PyError → String
  | .attributeError m => m
  | .typeError m => m

/-- A JSON value as produced by `json.loads`. -/
inductive Json where
  | null
  | bool (b : Bool)
  | num (n : Int)
  | str (s : String)
  | arr (elems : List Json)
  | obj (fields : List (String × Json))

/-- First binding of a key in a JSON object field list. -/
def Json.lookup (kvs : List (String × Json)) (k : String) : Option Json :=
  (kvs.find? (fun p => p.1 == k)).map (·.2)

/-- Python `d.get(k, default)`: returns the mapped value or the default on a
dict, raises `AttributeError` on any non-dict receiver. -/
def Json.get (j : Json) (k : String) (dflt : Json) : Except PyError Json :=
  match j with
  | .obj kvs => .ok ((Json.lookup kvs k).getD dflt)
  | _ => .error (.attributeError "object has no attribute get")

/-- Python truthiness of a JSON-derived value. -/
def Json.truthy : Json → Bool
  | .null => false
  | .bool b => b
  | .num n => n != 0
  | .str s => s != ""
  | .arr xs => !xs.isEmpty
  | .obj kvs => !kvs.isEmpty

/-- Python `len(x)`: sized containers only, `TypeError` otherwise. -/
def Json.pyLen : Json → Except PyError Nat
  | .arr xs => .ok xs.length
  | .str s => .ok s.length
  | .obj kvs => .ok kvs.length
  | _ => .error (.typeError "object has no len")

/-- Python slice `x[:n]`: sequences only, `TypeError` otherwise. -/
def Json.pySlice (j : Json) (n : Nat) : Except PyError Json :=
  match j with
  | .str s => .ok (.str (String.mk (s.toList.take n)))
  | .arr xs => .ok (.arr (xs.take n))
  | _ => .error (.typeError "object is not subscriptable")

/-- Python iteration `for c in x`: lists yield elements, strings yield
one-character strings, dicts yield keys; anything else raises. -/
def Json.pyIter : Json → Except PyError (List Json)
  | .arr xs => .ok xs
  | .str s => .ok (s.toList.map (fun c => .str c.toString))
  | .obj kvs => .ok (kvs.map (fun p => .str p.1))
  | _ => .error (.typeError "object is not iterable")

/-- Python `str()` on a JSON-derived value, as used inside f-strings. -/
def Json.pyStr : Json → String
  | .null => "None"
  | .bool b => if b then "True" else "False"
  | .num n => toString n
  | .str s => s
  | .arr _ => "<list>"
  | .obj _ => "<dict>"

/-- Python `x == s` between a JSON-derived value and a string literal:
only an equal string compares equal, every other value compares unequal. -/
def Json.eqStr (j : Json) (s : String) : Bool :=
  match j with
  | .str t => t == s
  | _ => false

/-- Python `dict.update`: keys of the second object overwrite in place,
fresh keys are appended in order. -/
def Json.objUpdate (base upd : Json) : Json :=
  match base, upd with
  | .obj bs, .obj us =>
      .obj (us.foldl (fun acc p =>
        if acc.any (fun q => q.1 == p.1)
        then acc.map (fun q => if q.1 == p.1 then (q.1, p.2) else q)
        else acc ++ [p]) bs)
  | _, _ => base

/-- Field of a JSON object, for stating properties of result dicts. -/
def Json.getField (j : Json) (k : String) : Option Json :=
  match j with
  | .obj kvs => Json.lookup kvs k
  | _ => none

/-! ## Database rows

One structure per table declared in `webhook_models.py` / `repo_models.py`.
Nullable columns are `Option`; columns filled straight from the untyped
payload keep type `Json` (SQLAlchemy would pass whatever value the payload
held).  `DateTime` columns are abstract clock values (`Nat`). -/

/-- A `repo_data` row (`RepoData` in `repo_models.py`), restricted to the
columns the webhook subsystem reads or writes.  `clone_count` and
`total_commits` are `Option` because the service defends reads with
`(value or 0)`. -/
structure RepoDataRow where
  gitea_id : String
  owner_id : String
  clone_count : Option Nat
  last_push_at : Option Nat
  total_commits : Option Nat
  last_activity_at : Option Nat

/-- A `webhook_deliveries` row (`WebhookDelivery`).  `process_event` stores
the transport delivery id in the `signature` column. -/
structure WebhookDeliveryRow where
  id : Nat
  repo_id : String
  event_type : String
  payload : Json
  signature : String
  delivered_at : Nat
  processing_status : String
  error_message : Option String

/-- A `push_events` row (`PushEvent`). -/
structure PushEventRow where
  id : Nat
  repo_id : String
  pusher_id : Json
  pusher_username : Json
  ref : Json
  before_sha : Json
  after_sha : Json
  commit_count : Nat
  pushed_at : Nat

/-- A `repository_events` row (`RepositoryEvent`). -/
structure RepositoryEventRow where
  id : Nat
  repo_id : String
  event_type : String
  actor_id : Json
  actor_username : Json
  occurred_at : Nat

/-- A `webhook_configs` row (`WebhookConfig`). -/
structure WebhookConfigRow where
  id : Nat
  repo_id : String
  gitea_webhook_id : Json
  webhook_secret : String
  is_active : Bool

/-- The database state: the five tables touched by the webhook subsystem
plus a counter supplying generated primary keys. -/
structure DB where
  repo_data : List RepoDataRow
  webhook_deliveries : List WebhookDeliveryRow
  push_events : List PushEventRow
  repository_events : List RepositoryEventRow
  webhook_configs : List WebhookConfigRow
  next_id : Nat

/-- First row whose `gitea_id` matches, scanning in table order. -/
def findRow (s : String) : List RepoDataRow → Option RepoDataRow
  | [] => none
  | r :: rs => if r.gitea_id == s then some r else findRow s rs

/-- `db.query(RepoData).filter(RepoData.gitea_id == s).first()` for a string
identifier. -/
def DB.findRepoStr (db : DB) (s : String) : Option RepoDataRow :=
  findRow s db.repo_data

/-- The same query applied to a payload-derived value: SQL equality on the
varchar key only matches when the value is that string, so a non-string
identifier matches no row. -/
def DB.findRepo (db : DB) (j : Json) : Option RepoDataRow :=
  match j with
  | .str s => db.findRepoStr s
  | _ => none

/-- Object-attribute mutation of the matched `repo_data` row, as staged on the
SQLAlchemy session.  The update function never changes the primary key. -/
def DB.updateRepo (db : DB) (name : String) (f : RepoDataRow → RepoDataRow) : DB :=
  { db with repo_data := db.repo_data.map (fun r => if r.gitea_id == name then f r else r) }

/-- `db.delete(repo_data_row)`: the ORM relationships carry
`cascade="all, delete-orphan"` and every child foreign key carries
`ondelete="CASCADE"`, so deleting the aggregate removes every dependent row —
including rows staged earlier in the same transaction, which the
database-level cascade removes by commit time. -/
def DB.deleteRepoCascade (db : DB) (name : String) : DB :=
  { db with
    repo_data := db.repo_data.filter (fun r => r.gitea_id != name),
    webhook_deliveries := db.webhook_deliveries.filter (fun d => d.repo_id != name),
    push_events := db.push_events.filter (fun p => p.repo_id != name),
    repository_events := db.repository_events.filter (fun e => e.repo_id != name),
    webhook_configs := db.webhook_configs.filter (fun c => c.repo_id != name) }

/-- `delivery.processing_status = "success"` on the delivery row `i`. -/
def DB.markDeliverySuccess (db : DB) (i : Nat) : DB :=
  { db with webhook_deliveries := db.webhook_deliveries.map (fun d =>
      if d.id == i then { d with processing_status := "success" } else d) }

/-- `delivery.processing_status = "failed"; delivery.error_message = str(e)`. -/
def DB.markDeliveryFailed (db : DB) (i : Nat) (msg : String) : DB :=
  { db with webhook_deliveries := db.webhook_deliveries.map (fun d =>
      if d.id == i then
        { d with processing_status := "failed", error_message := some msg } else d) }

/-! ## The session monad

`PyM α` is a Python computation over one SQLAlchemy session.  The service
commits on both the success path and the exception path of `process_event`
and never rolls back, so staged mutations always become durable; the monad
therefore applies mutations eagerly and an exception carries the state as
mutated so far. -/

/-- A Python computation over the database session. -/
def PyM (α : Type) : Type := DB → DB × Except PyError α

/-- Run a computation on an initial database state. -/
def PyM.run (x : PyM α) (db : DB) : DB × Except PyError α := x db

/-- Monadic `pure`. -/
def PyM.mkPure (a : α) : PyM α := fun db => (db, .ok a)

/-- Monadic `bind`: an exception short-circuits but keeps the state mutated
so far. -/
def PyM.mkBind (x : PyM α) (f : α → PyM β) : PyM β := fun db =>
  match x db with
  | (db', .ok a) => f a db'
  | (db', .error e) => (db', .error e)

instance : Monad PyM where
  pure := PyM.mkPure
  bind := PyM.mkBind

theorem PyM.bind_eq (x : PyM α) (f : α → PyM β) : x >>= f = PyM.mkBind x f := rfl

theorem PyM.pure_eq (a : α) : (pure a : PyM α) = PyM.mkPure a := rfl

/-- Raise an exception. -/
def PyM.raise (e : PyError) : PyM α := fun db => (db, .error e)

/-- Lift a pure fallible step (no session effect). -/
def PyM.liftE (x : Except PyError α) : PyM α := fun db => (db, x)

/-- Read the session state. -/
def PyM.getDb : PyM DB := fun db => (db, .ok db)

/-- Stage a session mutation. -/
def PyM.modifyDb (f : DB → DB) : PyM Unit := fun db => (f db, .ok ())

/-- Python `try/except Exception`: the handler runs on the state as mutated
up to the raise — the session keeps its staged changes, as the source code
never rolls back. -/
def PyM.tryCatch (x : PyM α) (h : PyError → PyM α) : PyM α := fun db =>
  match x db with
  | (db', .ok a) => (db', .ok a)
  | (db', .error e) => h e db'

/-- `db.add(WebhookDelivery(...)); db.flush()` — inserts with status
`pending` and yields the generated primary key. -/
def PyM.insertDelivery (repoId eventType : String) (payload : Json)
    (deliveryId : String) (now : Nat) : PyM Nat := fun db =>
  ({ db with
      webhook_deliveries := db.webhook_deliveries ++
        [{ id := db.next_id, repo_id := repoId, event_type := eventType,
           payload := payload, signature := deliveryId, delivered_at := now,
           processing_status := "pending", error_message := none }],
      next_id := db.next_id + 1 }, .ok db.next_id)

/-- `db.add(PushEvent(...))`. -/
def PyM.insertPushEvent (repoId : String) (pusherId pusherUsername ref beforeSha afterSha : Json)
    (commitCount : Nat) (now : Nat) : PyM Nat := fun db =>
  ({ db with
      push_events := db.push_events ++
        [{ id := db.next_id, repo_id := repoId, pusher_id := pusherId,
           pusher_username := pusherUsername, ref := ref, before_sha := beforeSha,
           after_sha := afterSha, commit_count := commitCount, pushed_at := now }],
      next_id := db.next_id + 1 }, .ok db.next_id)

/-- `db.add(RepositoryEvent(...))`. -/
def PyM.insertRepositoryEvent (repoId eventType : String) (actorId actorUsername : Json)
    (now : Nat) : PyM Nat := fun db =>
  ({ db with
      repository_events := db.repository_events ++
        [{ id := db.next_id, repo_id := repoId, event_type := eventType,
           actor_id := actorId, actor_username := actorUsername, occurred_at := now }],
      next_id := db.next_id + 1 }, .ok db.next_id)

/-- `db.add(WebhookConfig(...))`. -/
def PyM.insertWebhookConfig (repoId : String) (giteaWebhookId : Json)
    (secret : String) : PyM Nat := fun db =>
  ({ db with
      webhook_configs := db.webhook_configs ++
        [{ id := db.next_id, repo_id := repoId, gitea_webhook_id := giteaWebhookId,
           webhook_secret := secret, is_active := true }],
      next_id := db.next_id + 1 }, .ok db.next_id)

/-! ## `WebhookService` (`webhook_service.py`) -/

/-- `WebhookService.validate_signature`.  `hmacHex secret body` abstracts
`hmac.new(secret.encode(), payload, hashlib.sha256).hexdigest()`;
`hmac.compare_digest` is a constant-time string comparison, i.e. equality.
The module-level setting `settings.gitea_webhook_secret` is the `secret`
argument, with `""` standing for an unset secret (both are falsy). -/
def validateSignature (hmacHex : String → List Nat → String) (secret : String)
    (payload : List Nat) (signature : String) : Bool :=
  if signature == "" then false
  else if secret == "" then false
  else hmacHex secret payload == signature

/-- The per-commit summary dict built inside `_handle_push`
(`sha`/`message`/`author`, truncated). -/
def commitSummary (c : Json) : Except PyError Json := do
  let cid ← c.get "id" (.str "")
  let sha ← cid.pySlice 8
  let msg ← c.get "message" (.str "")
  let msg120 ← msg.pySlice 120
  let author ← c.get "author" (.obj [])
  let aname ← author.get "name" (.str "")
  pure (Json.obj [("sha", sha), ("message", msg120), ("author", aname)])

/-- The `commit_summaries` loop of `_handle_push`: `for c in commits[:10]`.
Pure (no session effect), so modelled as one `Except` computation. -/
def commitSummaries (commits : Json) : Except PyError (List Json) := do
  let sliced ← commits.pySlice 10
  let items ← sliced.pyIter
  items.mapM commitSummary

/-- The `_handle_push` mutation of the aggregate row:
`last_push_at = now; total_commits = (total_commits or 0) + len(commits);
last_activity_at = now`. -/
def pushAggUpdate (now n : Nat) (r : RepoDataRow) : RepoDataRow :=
  { r with last_push_at := some now,
           total_commits := some (r.total_commits.getD 0 + n),
           last_activity_at := some now }

/-- The `_handle_create` mutation of the aggregate row:
`last_activity_at = now`. -/
def touchActivity (now : Nat) (r : RepoDataRow) : RepoDataRow :=
  { r with last_activity_at := some now }

/-- The `_handle_fork` mutation of the aggregate row:
`clone_count = (clone_count or 0) + 1; last_activity_at = now`. -/
def forkAggUpdate (now : Nat) (r : RepoDataRow) : RepoDataRow :=
  { r with clone_count := some (r.clone_count.getD 0 + 1),
           last_activity_at := some now }

/-- `WebhookService._handle_push`. -/
def handlePush (payload : Json) (now : Nat) : PyM Json := do
  let repoObj ← PyM.liftE (payload.get "repository" (.obj []))
  let repoFullName ← PyM.liftE (repoObj.get "full_name" (.str ""))
  let ref ← PyM.liftE (payload.get "ref" (.str ""))
  let beforeSha ← PyM.liftE (payload.get "before" (.str ""))
  let afterSha ← PyM.liftE (payload.get "after" (.str ""))
  let commits ← PyM.liftE (payload.get "commits" (.arr []))
  let pusher ← PyM.liftE (payload.get "pusher" (.obj []))
  let loginDefault ← PyM.liftE (pusher.get "login" (.str "unknown"))
  let pusherUsername ← PyM.liftE (pusher.get "username" loginDefault)
  let db ← PyM.getDb
  match db.findRepo repoFullName with
  | some repoRow => do
      -- `PushEvent(repo_id=repo_full_name, ...)`: the row was matched on
      -- `gitea_id == repo_full_name`, so the stored key is that same string.
      let nCommits ← PyM.liftE commits.pyLen
      let _ ← PyM.insertPushEvent repoRow.gitea_id pusherUsername pusherUsername
                ref beforeSha afterSha nCommits now
      PyM.modifyDb (fun d => d.updateRepo repoRow.gitea_id (pushAggUpdate now nCommits))
  | none => pure ()
  let summaries ← PyM.liftE (commitSummaries commits)
  let nTotal ← PyM.liftE commits.pyLen
  pure (Json.obj [("status", .str "processed"), ("ref", ref),
    ("commit_count", .num nTotal), ("pusher", pusherUsername),
    ("commits", .arr summaries)])

/-- `WebhookService._handle_create`. -/
def handleCreate (payload : Json) (now : Nat) : PyM Json := do
  let repoObj ← PyM.liftE (payload.get "repository" (.obj []))
  let repoFullName ← PyM.liftE (repoObj.get "full_name" (.str ""))
  let refType ← PyM.liftE (payload.get "ref_type" (.str "unknown"))
  let ref ← PyM.liftE (payload.get "ref" (.str ""))
  let sender ← PyM.liftE (payload.get "sender" (.obj []))
  let loginDefault ← PyM.liftE (sender.get "login" (.str "unknown"))
  let senderUsername ← PyM.liftE (sender.get "username" loginDefault)
  let db ← PyM.getDb
  match db.findRepo repoFullName with
  | some repoRow => do
      let _ ← PyM.insertRepositoryEvent repoRow.gitea_id (refType.pyStr ++ "_created")
                senderUsername senderUsername now
      PyM.modifyDb (fun d => d.updateRepo repoRow.gitea_id (touchActivity now))
  | none => pure ()
  pure (Json.obj [("status", .str "processed"), ("ref_type", refType),
    ("ref", ref), ("sender", senderUsername)])

/-- `WebhookService._handle_delete` — records the lifecycle event but, unlike
`_handle_create`, does not touch `last_activity_at`. -/
def handleDelete (payload : Json) (now : Nat) : PyM Json := do
  let repoObj ← PyM.liftE (payload.get "repository" (.obj []))
  let repoFullName ← PyM.liftE (repoObj.get "full_name" (.str ""))
  let refType ← PyM.liftE (payload.get "ref_type" (.str "unknown"))
  let ref ← PyM.liftE (payload.get "ref" (.str ""))
  let sender ← PyM.liftE (payload.get "sender" (.obj []))
  let loginDefault ← PyM.liftE (sender.get "login" (.str "unknown"))
  let senderUsername ← PyM.liftE (sender.get "username" loginDefault)
  let db ← PyM.getDb
  match db.findRepo repoFullName with
  | some repoRow => do
      let _ ← PyM.insertRepositoryEvent repoRow.gitea_id (refType.pyStr ++ "_deleted")
                senderUsername senderUsername now
  | none => pure ()
  pure (Json.obj [("status", .str "processed"), ("ref_type", refType),
    ("ref", ref), ("sender", senderUsername)])

/-- `WebhookService._handle_repository` — records `repository_{action}` and,
when `action == "deleted"`, deletes the aggregate row (cascading). -/
def handleRepository (payload : Json) (now : Nat) : PyM Json := do
  let action ← PyM.liftE (payload.get "action" (.str "unknown"))
  let repoObj ← PyM.liftE (payload.get "repository" (.obj []))
  let repoFullName ← PyM.liftE (repoObj.get "full_name" (.str ""))
  let sender ← PyM.liftE (payload.get "sender" (.obj []))
  let loginDefault ← PyM.liftE (sender.get "login" (.str "unknown"))
  let senderUsername ← PyM.liftE (sender.get "username" loginDefault)
  let db ← PyM.getDb
  match db.findRepo repoFullName with
  | some repoRow => do
      let _ ← PyM.insertRepositoryEvent repoRow.gitea_id ("repository_" ++ action.pyStr)
                senderUsername senderUsername now
      if action.eqStr "deleted" then
        PyM.modifyDb (fun d => d.deleteRepoCascade repoRow.gitea_id)
      else
        pure ()
  | none => pure ()
  pure (Json.obj [("status", .str "processed"), ("action", action),
    ("sender", senderUsername)])

/-- `WebhookService._handle_fork`. -/
def handleFork (payload : Json) (now : Nat) : PyM Json := do
  let repoObj ← PyM.liftE (payload.get "repository" (.obj []))
  let originalRepo ← PyM.liftE (repoObj.get "full_name" (.str ""))
  let forkee ← PyM.liftE (payload.get "forkee" (.obj []))
  let forkedRepo ← PyM.liftE (forkee.get "full_name" (.str "unknown"))
  let sender ← PyM.liftE (payload.get "sender" (.obj []))
  let loginDefault ← PyM.liftE (sender.get "login" (.str "unknown"))
  let senderUsername ← PyM.liftE (sender.get "username" loginDefault)
  let db ← PyM.getDb
  match db.findRepo originalRepo with
  | some repoRow =>
      PyM.modifyDb (fun d => d.updateRepo repoRow.gitea_id (forkAggUpdate now))
  | none => pure ()
  pure (Json.obj [("status", .str "processed"), ("original_repo", originalRepo),
    ("forked_repo", forkedRepo), ("sender", senderUsername)])

/-- The `result` dict that `process_event` builds before dispatching. -/
def mkBaseResult (eventType deliveryId : String) (dbDeliveryId : Option Nat)
    (repoFullName : Json) (tracked : Bool) : Json :=
  Json.obj [("event_type", .str eventType), ("delivery_id", .str deliveryId),
    ("db_delivery_id", match dbDeliveryId with | some i => .num i | none => .null),
    ("repo", repoFullName), ("repo_tracked", .bool tracked),
    ("status", .str "processed")]

/-- Steps 1–2 of `WebhookService.process_event`: extract the repository
identifier, record the delivery (only when the repository is tracked) and
build the base result dict.  These lines run before the `try` block. -/
def processEventStage1 (eventType deliveryId : String) (payload : Json)
    (now : Nat) : PyM (Option Nat × Json) := do
  let repoInfo ← PyM.liftE (payload.get "repository" (.obj []))
  let repoFullName ← PyM.liftE (repoInfo.get "full_name" (.str "unknown"))
  let db ← PyM.getDb
  match db.findRepo repoFullName with
  | some row => do
      let i ← PyM.insertDelivery row.gitea_id eventType payload deliveryId now
      pure (some i, mkBaseResult eventType deliveryId (some i) repoFullName true)
  | none =>
      pure (none, mkBaseResult eventType deliveryId none repoFullName false)

/-- The handler dispatch inside the `try` block of `process_event`. -/
def dispatchEvent (eventType : String) (payload : Json) (now : Nat) : PyM Json :=
  if eventType == "push" then handlePush payload now
  else if eventType == "create" then handleCreate payload now
  else if eventType == "delete" then handleDelete payload now
  else if eventType == "repository" then handleRepository payload now
  else if eventType == "fork" then handleFork payload now
  else pure (Json.obj [("status", .str "ignored"),
    ("reason", .str ("unhandled event: " ++ eventType))])

/-- Mark the pending delivery failed, when one was recorded. -/
def markFailedOpt (db : DB) (dOpt : Option Nat) (msg : String) : DB :=
  match dOpt with
  | some i => db.markDeliveryFailed i msg
  | none => db

/-- Mark the pending delivery succeeded, when one was recorded. -/
def markSuccessOpt (db : DB) (dOpt : Option Nat) : DB :=
  match dOpt with
  | some i => db.markDeliverySuccess i
  | none => db

/-- `WebhookService.process_event`.  Both branches end in `db.commit()`; the
exception branch keeps every mutation staged before the raise (the session is
never rolled back) and additionally marks the delivery failed. -/
def processEvent (eventType deliveryId : String) (payload : Json)
    (now : Nat) : PyM Json := do
  let s ← processEventStage1 eventType deliveryId payload now
  PyM.tryCatch
    (do
      let handlerResult ← dispatchEvent eventType payload now
      let merged := Json.objUpdate s.2 handlerResult
      PyM.modifyDb (fun d => markSuccessOpt d s.1)
      pure merged)
    (fun e => do
      PyM.modifyDb (fun d => markFailedOpt d s.1 e.message)
      pure (Json.objUpdate s.2
        (Json.obj [("status", .str "failed"), ("error", .str e.message)])))

/-! ## The receiver endpoint (`main.py`, `POST /api/webhooks/gitea`) -/

/-- ASCII lowercase of one character, as HTTP header comparison uses. -/
def asciiLowerChar (c : Char) : Char :=
  if 65 ≤ c.toNat ∧ c.toNat ≤ 90 then Char.ofNat (c.toNat + 32) else c

/-- ASCII lowercase of a header name. -/
def asciiLower (s : String) : String := String.mk (s.toList.map asciiLowerChar)

/-- Case-insensitive header lookup (Starlette header mappings are
case-insensitive). -/
def headerGet (hs : List (String × String)) (k : String) : Option String :=
  (hs.find? (fun p => asciiLower p.1 == asciiLower k)).map (·.2)

/-- `request.headers.get(K) or request.headers.get(k, dflt)` — both lookups
agree because the mapping is case-insensitive, so an empty-string header
value falls through to itself and an absent header yields the default. -/
def headerOr (hs : List (String × String)) (k : String) (dflt : String) : String :=
  match headerGet hs k with
  | some v => if v != "" then v else (headerGet hs k).getD dflt
  | none => (headerGet hs k).getD dflt

/-- `receive_gitea_webhook`.  `jsonLoads` abstracts `json.loads`, returning
`none` when the body is not valid JSON.  Note that `process_event` is called
outside any `try` block, so an exception it raises escapes the endpoint. -/
def receiveGiteaWebhook (hmacHex : String → List Nat → String)
    (jsonLoads : List Nat → Option Json) (secret : String)
    (headers : List (String × String)) (body : List Nat) (now : Nat) : PyM Json := do
  let eventType := headerOr headers "X-Gitea-Event" "unknown"
  let deliveryId := headerOr headers "X-Gitea-Delivery" "unknown"
  let signature := headerOr headers "X-Gitea-Signature" ""
  if !validateSignature hmacHex secret body signature then
    pure (Json.obj [("status", .str "rejected"), ("reason", .str "invalid_signature")])
  else
    match jsonLoads body with
    | none => pure (Json.obj [("status", .str "rejected"), ("reason", .str "invalid_json")])
    | some payload => do
        let result ← processEvent eventType deliveryId payload now
        pure (Json.obj [("status", .str "ok"), ("result", result)])

/-- The HTTP status of one receiver invocation: FastAPI serialises a returned
dict with status 200; an uncaught exception reaches the server-error
middleware, which answers 500 (no catch-all exception handler is registered
in `main.py`). -/
def httpStatus (outcome : DB × Except PyError Json) : Nat :=
  match outcome.2 with
  | .ok _ => 200
  | .error _ => 500

/-! ## Webhook registration (`WebhookService.setup_webhook_for_repo`) -/

/-- The event list subscribed at registration time. -/
def subscribedEvents : Json :=
  .arr [.str "push", .str "create", .str "delete", .str "repository", .str "fork"]

/-- `WebhookService.setup_webhook_for_repo`.  `remoteResult` is the dict the
Git-host admin client returned from `create_webhook`; `flushErr` injects the
database error that `db.flush()` may raise while persisting the local
`WebhookConfig` row (the staged row is then never committed by the caller). -/
def setupWebhookForRepo (baseUrl secret owner repo : String)
    (remoteResult : Json) (flushErr : Option PyError) : PyM Json := do
  let webhookUrl := baseUrl ++ "/api/webhooks/gitea"
  let success ← PyM.liftE (remoteResult.get "success" .null)
  if !success.truthy then
    pure remoteResult
  else
    PyM.tryCatch
      (do
        let webhookId ← PyM.liftE (remoteResult.get "webhook_id" .null)
        let _ ← PyM.insertWebhookConfig (owner ++ "/" ++ repo) webhookId secret
        match flushErr with
        | some e => PyM.raise e
        | none => pure ()
        let webhookId2 ← PyM.liftE (remoteResult.get "webhook_id" .null)
        pure (Json.obj [("success", .bool true), ("webhook_id", webhookId2),
          ("url", .str webhookUrl), ("events", subscribedEvents)]))
      (fun e => do
        let webhookId ← PyM.liftE (remoteResult.get "webhook_id" .null)
        pure (Json.obj [("success", .bool true), ("webhook_id", webhookId),
          ("url", .str webhookUrl), ("events", subscribedEvents),
          ("warning", .str ("Webhook created but config save failed: " ++ e.message))]))

/-! ## The lifecycle-events read endpoint
(`main.py`, `GET /api/webhooks/repo/.../events`) -/

/-- Stable insertion into a list sorted by descending key. -/
def insertDesc (key : α → Nat) (x : α) : List α → List α
  | [] => [x]
  | y :: ys => if key y < key x then x :: y :: ys else y :: insertDesc key x ys

/-- Stable sort by descending key (`ORDER BY ... DESC`). -/
def sortDesc (key : α → Nat) : List α → List α
  | [] => []
  | x :: xs => insertDesc key x (sortDesc key xs)

/-- `get_repo_events`: the rows for `owner/repo`, newest first, capped at
`min(limit, 50)`, serialised as the `events` response. -/
def getRepoEvents (owner repo : String) (lim : Nat) (db : DB) : Json :=
  let repoId := owner ++ "/" ++ repo
  let rows := (sortDesc (fun e => e.occurred_at)
      (db.repository_events.filter (fun e => e.repo_id == repoId))).take (min lim 50)
  Json.obj [("success", .bool true), ("repo", .str repoId),
    ("count", .num rows.length),
    ("events", .arr (rows.map (fun e => Json.obj [("id", .num e.id),
      ("event_type", .str e.event_type), ("actor", e.actor_username),
      ("occurred_at", .str (toString e.occurred_at))])))]

/-! ## Run equations and supporting lemmas -/

theorem PyM.run_bind (x : PyM α) (f : α → PyM β) (db : DB) :
    (PyM.mkBind x f).run db =
      match x.run db with
      | (db1, .ok a) => (f a).run db1
      | (db1, .error e) => (db1, .error e) := rfl

theorem PyM.run_tryCatch (x : PyM α) (h : PyError → PyM α) (db : DB) :
    (PyM.tryCatch x h).run db =
      match x.run db with
      | (db1, .ok a) => (db1, .ok a)
      | (db1, .error e) => (h e).run db1 := rfl

theorem PyM.run_mkPure (a : α) (db : DB) : (PyM.mkPure a).run db = (db, .ok a) := rfl

theorem PyM.run_liftE (x : Except PyError α) (db : DB) : (PyM.liftE x).run db = (db, x) := rfl

theorem PyM.run_getDb (db : DB) : PyM.getDb.run db = (db, .ok db) := rfl

theorem PyM.run_modifyDb (f : DB → DB) (db : DB) :
    (PyM.modifyDb f).run db = (f db, .ok ()) := rfl

theorem PyM.run_raise (e : PyError) (db : DB) :
    (PyM.raise e : PyM α).run db = (db, .error e) := rfl

theorem PyM.run_insertDelivery (repoId eventType : String) (payload : Json)
    (deliveryId : String) (now : Nat) (db : DB) :
    (PyM.insertDelivery repoId eventType payload deliveryId now).run db =
      ({ db with
          webhook_deliveries := db.webhook_deliveries ++
            [{ id := db.next_id, repo_id := repoId, event_type := eventType,
               payload := payload, signature := deliveryId, delivered_at := now,
               processing_status := "pending", error_message := none }],
          next_id := db.next_id + 1 }, .ok db.next_id) := rfl

theorem PyM.run_insertPushEvent (repoId : String)
    (pusherId pusherUsername ref beforeSha afterSha : Json)
    (commitCount : Nat) (now : Nat) (db : DB) :
    (PyM.insertPushEvent repoId pusherId pusherUsername ref beforeSha afterSha
        commitCount now).run db =
      ({ db with
          push_events := db.push_events ++
            [{ id := db.next_id, repo_id := repoId, pusher_id := pusherId,
               pusher_username := pusherUsername, ref := ref, before_sha := beforeSha,
               after_sha := afterSha, commit_count := commitCount, pushed_at := now }],
          next_id := db.next_id + 1 }, .ok db.next_id) := rfl

theorem PyM.run_insertRepositoryEvent (repoId eventType : String)
    (actorId actorUsername : Json) (now : Nat) (db : DB) :
    (PyM.insertRepositoryEvent repoId eventType actorId actorUsername now).run db =
      ({ db with
          repository_events := db.repository_events ++
            [{ id := db.next_id, repo_id := repoId, event_type := eventType,
               actor_id := actorId, actor_username := actorUsername, occurred_at := now }],
          next_id := db.next_id + 1 }, .ok db.next_id) := rfl

theorem PyM.run_insertWebhookConfig (repoId : String) (giteaWebhookId : Json)
    (secret : String) (db : DB) :
    (PyM.insertWebhookConfig repoId giteaWebhookId secret).run db =
      ({ db with
          webhook_configs := db.webhook_configs ++
            [{ id := db.next_id, repo_id := repoId, gitea_webhook_id := giteaWebhookId,
               webhook_secret := secret, is_active := true }],
          next_id := db.next_id + 1 }, .ok db.next_id) := rfl

/-- `findRow` over the pointwise update of the matched row: updating the row
in place (keeping its key) commutes with looking it up. -/
theorem findRow_map_update (l : List RepoDataRow) (s : String)
    (f : RepoDataRow → RepoDataRow) (hf : ∀ r, (f r).gitea_id = r.gitea_id) :
    findRow s (l.map (fun r => if r.gitea_id == s then f r else r)) =
      (findRow s l).map f := by
  induction l with
  | nil => rfl
  | cons a l ih =>
    by_cases h : a.gitea_id = s
    · simp [findRow, h, hf]
    · have hb : ¬ ((a.gitea_id == s) = true) := by simpa using h
      simp only [List.map_cons, findRow, if_neg hb]
      exact ih

/-- Looking up the updated repository after `updateRepo`. -/
theorem findRepoStr_updateRepo (db : DB) (s : String)
    (f : RepoDataRow → RepoDataRow) (hf : ∀ r, (f r).gitea_id = r.gitea_id) :
    (db.updateRepo s f).findRepoStr s = (db.findRepoStr s).map f := by
  unfold DB.updateRepo DB.findRepoStr
  exact findRow_map_update db.repo_data s f hf

/-- A found repository row carries the searched key. -/
theorem findRow_key (l : List RepoDataRow) (s : String) (row : RepoDataRow)
    (h : findRow s l = some row) : row.gitea_id = s := by
  induction l with
  | nil => exact absurd h (by simp [findRow])
  | cons a l ih =>
    by_cases ha : a.gitea_id = s
    · simp [findRow, ha] at h
      rw [← h]
      exact ha
    · simp [findRow, ha] at h
      exact ih h

/-- A found repository row carries the searched key. -/
theorem findRepoStr_key (db : DB) (s : String) (row : RepoDataRow)
    (h : db.findRepoStr s = some row) : row.gitea_id = s :=
  findRow_key db.repo_data s row h

/-- One run of `process_event`, split into its pre-`try` part and the
dispatch: a successful dispatch commits the handler state with the delivery
marked success; a raising dispatch commits the handler state as mutated up to
the raise with the delivery marked failed. -/
theorem processEvent_run_eq (et did : String) (p : Json) (now : Nat) (db : DB) :
    (processEvent et did p now).run db =
      match (processEventStage1 et did p now).run db with
      | (db1, .error e) => (db1, .error e)
      | (db1, .ok s) =>
        match (dispatchEvent et p now).run db1 with
        | (db2, .ok hr) => (markSuccessOpt db2 s.1, .ok (Json.objUpdate s.2 hr))
        | (db2, .error e) =>
            (markFailedOpt db2 s.1 e.message,
             .ok (Json.objUpdate s.2 (Json.obj [("status", .str "failed"),
               ("error", .str e.message)]))) := by
  unfold processEvent
  simp only [PyM.bind_eq, PyM.pure_eq, PyM.run_bind, PyM.run_tryCatch,
    PyM.run_modifyDb, PyM.run_mkPure]
  rcases h1 : (processEventStage1 et did p now).run db with ⟨db1, r1⟩
  cases r1 with
  | error e => rfl
  | ok s =>
    rcases h2 : (dispatchEvent et p now).run db1 with ⟨db2, r2⟩
    cases r2 with
    | error e => simp only [h2]
    | ok hr => simp only [h2]

/-- One run of the pre-`try` part of `process_event`, for a payload whose
`repository.full_name` extraction yields the string `rname`: when the
repository is tracked a pending delivery row is inserted, otherwise the state
is untouched. -/
theorem run_stage1 (et did : String) (p rep : Json) (rname : String) (now : Nat) (db : DB)
    (h1 : p.get "repository" (Json.obj []) = .ok rep)
    (h2 : rep.get "full_name" (Json.str "unknown") = .ok (Json.str rname)) :
    (processEventStage1 et did p now).run db =
      match db.findRepoStr rname with
      | some row =>
          ({ db with
              webhook_deliveries := db.webhook_deliveries ++
                [{ id := db.next_id, repo_id := row.gitea_id, event_type := et,
                   payload := p, signature := did, delivered_at := now,
                   processing_status := "pending", error_message := none }],
              next_id := db.next_id + 1 },
           .ok (some db.next_id, mkBaseResult et did (some db.next_id) (.str rname) true))
      | none => (db, .ok (none, mkBaseResult et did none (.str rname) false)) := by
  unfold processEventStage1
  simp only [PyM.bind_eq, PyM.pure_eq, PyM.run_bind, PyM.run_liftE, h1, h2,
    PyM.run_getDb, DB.findRepo]
  cases hf : db.findRepoStr rname with
  | some row =>
      simp only [hf, PyM.run_bind, PyM.run_insertDelivery, PyM.run_mkPure]
  | none => simp only [hf, PyM.run_mkPure]

/-- One run of the receiver on a correctly signed, JSON-parsable body:
the response wraps the `process_event` result in `status: ok`, and an
exception raised by `process_event` escapes. -/
theorem run_receive_ok (hmacHex : String → List Nat → String)
    (jsonLoads : List Nat → Option Json) (secret : String)
    (headers : List (String × String)) (body : List Nat) (now : Nat) (db : DB) (p : Json)
    (hsig : validateSignature hmacHex secret body
      (headerOr headers "X-Gitea-Signature" "") = true)
    (hparse : jsonLoads body = some p) :
    (receiveGiteaWebhook hmacHex jsonLoads secret headers body now).run db =
      match (processEvent (headerOr headers "X-Gitea-Event" "unknown")
          (headerOr headers "X-Gitea-Delivery" "unknown") p now).run db with
      | (db1, .ok r) => (db1, .ok (Json.obj [("status", .str "ok"), ("result", r)]))
      | (db1, .error e) => (db1, .error e) := by
  unfold receiveGiteaWebhook
  simp only [hsig, Bool.not_true, Bool.false_eq_true, if_false, hparse,
    PyM.bind_eq, PyM.pure_eq, PyM.run_bind, PyM.run_mkPure]
  rcases h : (processEvent (headerOr headers "X-Gitea-Event" "unknown")
      (headerOr headers "X-Gitea-Delivery" "unknown") p now).run db with ⟨db1, r1⟩
  cases r1 with
  | error e => rfl
  | ok r => rfl

/-! ## Claim C1 — atomicity of one reconcile call -/

/-- The tracked aggregate row used by the concrete scenarios. -/
def repoRowAB : RepoDataRow :=
  { gitea_id := "alice/beats", owner_id := "alice", clone_count := some 0,
    last_push_at := none, total_commits := some 0, last_activity_at := none }

/-- A database tracking exactly `alice/beats`, with empty history tables. -/
def dbAB : DB :=
  { repo_data := [repoRowAB], webhook_deliveries := [], push_events := [],
    repository_events := [], webhook_configs := [], next_id := 1 }

/-- A push payload whose commits list holds a non-dict element: the handler
stages the history row and the counter update, then raises `AttributeError`
while building the commit summaries. -/
def c1Payload : Json :=
  .obj [("repository", .obj [("full_name", .str "alice/beats")]),
        ("commits", .arr [.num 42]), ("pusher", .obj [])]

/-- C1: counterexample.  Reconciling `c1Payload` raises inside the push
handler after the history row and the counter update were staged; the
except-branch `db.commit()` then makes both durable alongside the failed
delivery mark.  So a handler that raises mid-way leaves a history row and a
counter change observable — the effects were not rolled back. -/
theorem c1_counterexample :
    (((processEvent "push" "d1" c1Payload 7).run dbAB).1.push_events.length = 1) ∧
    ((((processEvent "push" "d1" c1Payload 7).run dbAB).1.findRepoStr "alice/beats").map
      (fun r => r.total_commits) = some (some 1)) ∧
    (((processEvent "push" "d1" c1Payload 7).run dbAB).1.webhook_deliveries.map
      (fun d => d.processing_status) = ["failed"]) ∧
    ((match ((processEvent "push" "d1" c1Payload 7).run dbAB).2 with
      | .ok r => r.getField "status"
      | .error _ => none) = some (.str "failed")) :=
  ⟨rfl, rfl, rfl, rfl⟩

/-- C1 (amended): when the dispatched handler raises, `process_event` commits
the session exactly as mutated up to the raise — every effect staged before
the exception remains durable — and the same commit marks the pending
delivery failed with the exception detail; the returned result reports
status "failed".  No rollback to the pre-reconciliation state occurs. -/
theorem c1_amended (et did : String) (p : Json) (now : Nat) (db db1 db2 : DB)
    (s : Option Nat × Json) (e : PyError)
    (h1 : (processEventStage1 et did p now).run db = (db1, .ok s))
    (h2 : (dispatchEvent et p now).run db1 = (db2, .error e)) :
    (processEvent et did p now).run db =
      (markFailedOpt db2 s.1 e.message,
       .ok (Json.objUpdate s.2 (Json.obj [("status", .str "failed"),
         ("error", .str e.message)]))) := by
  unfold processEvent
  simp only [PyM.bind_eq, PyM.pure_eq, PyM.run_bind, h1, PyM.run_tryCatch, h2,
    PyM.run_modifyDb, PyM.run_mkPure]

/-- The session state after the delivery ledger insert of the C1 scenario. -/
def c1Db1 : DB := ((processEventStage1 "push" "d1" c1Payload 7).run dbAB).1

/-- The session state at the point where the C1 push handler raises. -/
def c1Db2 : DB := ((dispatchEvent "push" c1Payload 7).run c1Db1).1

/-- The exception raised by `c.get(...)` on the non-dict commit element. -/
def c1Err : PyError := .attributeError "object has no attribute get"

theorem c1_amended_witness :
    (processEvent "push" "d1" c1Payload 7).run dbAB =
      (markFailedOpt c1Db2 (some 1) c1Err.message,
       .ok (Json.objUpdate (mkBaseResult "push" "d1" (some 1) (.str "alice/beats") true)
         (Json.obj [("status", .str "failed"), ("error", .str c1Err.message)]))) :=
  c1_amended "push" "d1" c1Payload 7 dbAB c1Db1 c1Db2
    (some 1, mkBaseResult "push" "d1" (some 1) (.str "alice/beats") true) c1Err rfl rfl

/-! ## Claim C3 — the receiver must always answer HTTP 200 -/

/-- A stand-in for `hmac.new(secret, body, sha256).hexdigest()`, used to form
a correctly signed request in the concrete scenarios. -/
def stubHmac : String → List Nat → String := fun _ _ => "deadbeef"

/-- Headers of a correctly signed push delivery. -/
def signedPushHeaders : List (String × String) :=
  [("X-Gitea-Event", "push"), ("X-Gitea-Delivery", "d1"), ("X-Gitea-Signature", "deadbeef")]

/-- The body bytes of `b"[]"` — valid JSON that parses to a list, not a dict. -/
def arrayBody : List Nat := [91, 93]

/-- C3: evaluation at the failing input.  A correctly signed body `[]` passes
the signature check and parses as valid JSON, but `process_event` evaluates
`payload.get("repository", ...)` before its `try` block; on a list payload
this raises `AttributeError`, which no handler in `receive_gitea_webhook`
catches, so the endpoint answers HTTP 500 — contradicting both the claim and
the docstring of the endpoint ("Return 200 always"). -/
theorem c3_bug_eval :
    validateSignature stubHmac "sekret" arrayBody "deadbeef" = true ∧
    httpStatus ((receiveGiteaWebhook stubHmac (fun _ => some (Json.arr [])) "sekret"
      signedPushHeaders arrayBody 7).run dbAB) = 500 :=
  ⟨rfl, rfl⟩

/-! ## Push scenarios: payload shape and run equations -/

/-- A well-formed push payload assembled from its parts, as the Git host
sends it (§6 of the spec): a `repository.full_name`, the ref and SHA range,
the commit list and the pusher identity. -/
def mkPushPayload (rname ref bsha asha : String) (commits : List Json)
    (pusherName : String) : Json :=
  .obj [("repository", .obj [("full_name", .str rname)]),
        ("ref", .str ref), ("before", .str bsha), ("after", .str asha),
        ("commits", .arr commits),
        ("pusher", .obj [("username", .str pusherName)])]

/-- The result dict `_handle_push` returns on its normal path. -/
def pushHandlerResult (ref pusherName : String) (n : Nat) (summaries : List Json) : Json :=
  Json.obj [("status", .str "processed"), ("ref", .str ref),
    ("commit_count", .num n), ("pusher", .str pusherName),
    ("commits", .arr summaries)]

/-- One run of `_handle_push` on a well-formed push payload: for a tracked
repository it appends the history row and stages the aggregate mutation
before the summary loop runs, so a summary failure leaves those mutations in
place; for an untracked repository the state is untouched. -/
theorem run_handlePush (now : Nat) (db : DB) (rname ref bsha asha pusherName : String)
    (commits : List Json) :
    (handlePush (mkPushPayload rname ref bsha asha commits pusherName) now).run db =
      match db.findRepoStr rname with
      | some row =>
          (DB.updateRepo { db with
              push_events := db.push_events ++
                [{ id := db.next_id, repo_id := row.gitea_id,
                   pusher_id := .str pusherName, pusher_username := .str pusherName,
                   ref := .str ref, before_sha := .str bsha, after_sha := .str asha,
                   commit_count := commits.length, pushed_at := now }],
              next_id := db.next_id + 1 } row.gitea_id (pushAggUpdate now commits.length),
           (commitSummaries (.arr commits)).map (pushHandlerResult ref pusherName commits.length))
      | none =>
          (db, (commitSummaries (.arr commits)).map
            (pushHandlerResult ref pusherName commits.length)) := by
  unfold handlePush mkPushPayload
  cases hf : db.findRepoStr rname with
  | some row =>
    cases hcs : commitSummaries (.arr commits) with
    | ok s =>
      simp [hf, hcs, Json.get, Json.lookup, PyM.bind_eq, PyM.pure_eq, PyM.run_bind,
        PyM.run_liftE, PyM.run_getDb, PyM.run_modifyDb, PyM.run_mkPure,
        PyM.run_insertPushEvent, DB.findRepo, Json.pyLen, pushHandlerResult, Except.map]
    | error e =>
      simp [hf, hcs, Json.get, Json.lookup, PyM.bind_eq, PyM.pure_eq, PyM.run_bind,
        PyM.run_liftE, PyM.run_getDb, PyM.run_modifyDb, PyM.run_mkPure,
        PyM.run_insertPushEvent, DB.findRepo, Json.pyLen, Except.map]
  | none =>
    cases hcs : commitSummaries (.arr commits) with
    | ok s =>
      simp [hf, hcs, Json.get, Json.lookup, PyM.bind_eq, PyM.pure_eq, PyM.run_bind,
        PyM.run_liftE, PyM.run_getDb, PyM.run_modifyDb, PyM.run_mkPure,
        DB.findRepo, Json.pyLen, pushHandlerResult, Except.map]
    | error e =>
      simp [hf, hcs, Json.get, Json.lookup, PyM.bind_eq, PyM.pure_eq, PyM.run_bind,
        PyM.run_liftE, PyM.run_getDb, PyM.run_modifyDb, PyM.run_mkPure,
        DB.findRepo, Json.pyLen, Except.map]

/-- One run of `process_event` on a push for an untracked repository: the
database is untouched and the result reports `repo_tracked: false`. -/
theorem run_processEvent_push_untracked (did : String) (now : Nat) (db : DB)
    (rname ref bsha asha pusherName : String) (commits : List Json)
    (hfind : db.findRepoStr rname = none) :
    (processEvent "push" did (mkPushPayload rname ref bsha asha commits pusherName) now).run db =
      (db, .ok (Json.objUpdate (mkBaseResult "push" did none (.str rname) false)
        (match commitSummaries (.arr commits) with
         | .ok s => pushHandlerResult ref pusherName commits.length s
         | .error e => Json.obj [("status", .str "failed"),
             ("error", .str e.message)]))) := by
  rw [processEvent_run_eq,
    run_stage1 "push" did (mkPushPayload rname ref bsha asha commits pusherName)
      (Json.obj [("full_name", Json.str rname)]) rname now db rfl rfl,
    hfind]
  simp only [dispatchEvent, beq_self_eq_true, if_true, run_handlePush, hfind]
  cases hcs : commitSummaries (.arr commits) with
  | ok s => simp [hcs, Except.map, markSuccessOpt]
  | error e => simp [hcs, Except.map, markFailedOpt]

/-! ## Claim C4 — unknown-repository push is a complete no-op -/

/-- C4: a well-formed, correctly signed push payload for a repository absent
from the aggregate table leaves the database untouched (no DeliveryRecord, no
PushEventRecord, no aggregate row), reports `repo_tracked: false`, and the
endpoint still answers HTTP 200. -/
theorem c4_unknown_repo_noop (hmacHex : String → List Nat → String)
    (jsonLoads : List Nat → Option Json) (secret : String)
    (headers : List (String × String)) (body : List Nat) (now : Nat) (db : DB)
    (rname ref bsha asha pusherName : String) (commits : List Json)
    (hev : headerOr headers "X-Gitea-Event" "unknown" = "push")
    (hsig : validateSignature hmacHex secret body
      (headerOr headers "X-Gitea-Signature" "") = true)
    (hparse : jsonLoads body = some (mkPushPayload rname ref bsha asha commits pusherName))
    (hfind : db.findRepoStr rname = none) :
    ((receiveGiteaWebhook hmacHex jsonLoads secret headers body now).run db).1 = db ∧
    httpStatus ((receiveGiteaWebhook hmacHex jsonLoads secret headers body now).run db) = 200 ∧
    (match ((receiveGiteaWebhook hmacHex jsonLoads secret headers body now).run db).2 with
     | .ok r => (r.getField "result").bind (fun x => x.getField "repo_tracked")
     | .error _ => none) = some (.bool false) := by
  have hrec := run_receive_ok hmacHex jsonLoads secret headers body now db _ hsig hparse
  rw [hev, run_processEvent_push_untracked (headerOr headers "X-Gitea-Delivery" "unknown")
    now db rname ref bsha asha pusherName commits hfind] at hrec
  refine ⟨by rw [hrec], by rw [hrec]; rfl, ?_⟩
  rw [hrec]
  cases hcs : commitSummaries (.arr commits) with
  | ok s =>
    simp [hcs, Json.objUpdate, mkBaseResult, pushHandlerResult, Json.getField, Json.lookup]
  | error e =>
    simp [hcs, Json.objUpdate, mkBaseResult, Json.getField, Json.lookup]

/-- The parse stub of the C4 witness: the body parses to a push for the
untracked repository `ghost/repo`. -/
def c4Parse : List Nat → Option Json :=
  fun _ => some (mkPushPayload "ghost/repo" "refs/heads/main" "aaa" "bbb" [] "alice")

theorem c4_unknown_repo_noop_witness :
    (((receiveGiteaWebhook (fun _ _ => "deadbeef") c4Parse "sekret" [("X-Gitea-Event", "push"),
        ("X-Gitea-Delivery", "d1"), ("X-Gitea-Signature", "deadbeef")] [91, 93] 7).run dbAB).1
      = dbAB) ∧
    httpStatus ((receiveGiteaWebhook (fun _ _ => "deadbeef") c4Parse "sekret"
      [("X-Gitea-Event", "push"), ("X-Gitea-Delivery", "d1"),
       ("X-Gitea-Signature", "deadbeef")] [91, 93] 7).run dbAB) = 200 ∧
    (match ((receiveGiteaWebhook (fun _ _ => "deadbeef") c4Parse "sekret"
        [("X-Gitea-Event", "push"), ("X-Gitea-Delivery", "d1"),
         ("X-Gitea-Signature", "deadbeef")] [91, 93] 7).run dbAB).2 with
     | .ok r => (r.getField "result").bind (fun x => x.getField "repo_tracked")
     | .error _ => none) = some (.bool false) :=
  c4_unknown_repo_noop (fun _ _ => "deadbeef") c4Parse "sekret"
    [("X-Gitea-Event", "push"), ("X-Gitea-Delivery", "d1"), ("X-Gitea-Signature", "deadbeef")]
    [91, 93] 7 dbAB "ghost/repo" "refs/heads/main" "aaa" "bbb" "alice" [] rfl rfl rfl rfl

/-! ## Create/delete/repository/fork scenarios: payload shapes and run equations -/

/-- A branch/tag create or delete payload assembled from its parts. -/
def mkRefPayload (rname refType ref sender : String) : Json :=
  .obj [("repository", .obj [("full_name", .str rname)]),
        ("ref_type", .str refType), ("ref", .str ref),
        ("sender", .obj [("username", .str sender)])]

/-- A repository lifecycle payload assembled from its parts. -/
def mkRepositoryPayload (rname action sender : String) : Json :=
  .obj [("action", .str action),
        ("repository", .obj [("full_name", .str rname)]),
        ("sender", .obj [("username", .str sender)])]

/-- A fork payload assembled from its parts. -/
def mkForkPayload (rname forked sender : String) : Json :=
  .obj [("repository", .obj [("full_name", .str rname)]),
        ("forkee", .obj [("full_name", .str forked)]),
        ("sender", .obj [("username", .str sender)])]

/-- The result dict `_handle_create` / `_handle_delete` return. -/
def refHandlerResult (refType ref sender : String) : Json :=
  Json.obj [("status", .str "processed"), ("ref_type", .str refType),
    ("ref", .str ref), ("sender", .str sender)]

/-- The result dict `_handle_repository` returns. -/
def repositoryHandlerResult (action sender : String) : Json :=
  Json.obj [("status", .str "processed"), ("action", .str action),
    ("sender", .str sender)]

/-- The result dict `_handle_fork` returns. -/
def forkHandlerResult (rname forked sender : String) : Json :=
  Json.obj [("status", .str "processed"), ("original_repo", .str rname),
    ("forked_repo", .str forked), ("sender", .str sender)]

/-- One run of `_handle_create` on a well-formed payload: for a tracked
repository it appends the `{ref_type}_created` history row and touches
`last_activity_at`; otherwise the state is untouched. -/
theorem run_handleCreate (now : Nat) (db : DB) (rname refType ref sender : String) :
    (handleCreate (mkRefPayload rname refType ref sender) now).run db =
      match db.findRepoStr rname with
      | some row =>
          (DB.updateRepo { db with
              repository_events := db.repository_events ++
                [{ id := db.next_id, repo_id := row.gitea_id,
                   event_type := refType ++ "_created",
                   actor_id := .str sender, actor_username := .str sender,
                   occurred_at := now }],
              next_id := db.next_id + 1 } row.gitea_id (touchActivity now),
           .ok (refHandlerResult refType ref sender))
      | none => (db, .ok (refHandlerResult refType ref sender)) := by
  unfold handleCreate mkRefPayload
  cases hf : db.findRepoStr rname with
  | some row =>
      simp [hf, Json.get, Json.lookup, Json.pyStr, PyM.bind_eq, PyM.pure_eq,
        PyM.run_bind, PyM.run_liftE, PyM.run_getDb, PyM.run_modifyDb, PyM.run_mkPure,
        PyM.run_insertRepositoryEvent, DB.findRepo, refHandlerResult]
  | none =>
      simp [hf, Json.get, Json.lookup, PyM.bind_eq, PyM.pure_eq,
        PyM.run_bind, PyM.run_liftE, PyM.run_getDb, PyM.run_mkPure,
        DB.findRepo, refHandlerResult]

/-- One run of `_handle_delete` on a well-formed payload: for a tracked
repository it appends the `{ref_type}_deleted` history row and — unlike
`_handle_create` — leaves the aggregate row untouched. -/
theorem run_handleDelete (now : Nat) (db : DB) (rname refType ref sender : String) :
    (handleDelete (mkRefPayload rname refType ref sender) now).run db =
      match db.findRepoStr rname with
      | some row =>
          ({ db with
              repository_events := db.repository_events ++
                [{ id := db.next_id, repo_id := row.gitea_id,
                   event_type := refType ++ "_deleted",
                   actor_id := .str sender, actor_username := .str sender,
                   occurred_at := now }],
              next_id := db.next_id + 1 },
           .ok (refHandlerResult refType ref sender))
      | none => (db, .ok (refHandlerResult refType ref sender)) := by
  unfold handleDelete mkRefPayload
  cases hf : db.findRepoStr rname with
  | some row =>
      simp [hf, Json.get, Json.lookup, Json.pyStr, PyM.bind_eq, PyM.pure_eq,
        PyM.run_bind, PyM.run_liftE, PyM.run_getDb, PyM.run_mkPure,
        PyM.run_insertRepositoryEvent, DB.findRepo, refHandlerResult]
  | none =>
      simp [hf, Json.get, Json.lookup, PyM.bind_eq, PyM.pure_eq,
        PyM.run_bind, PyM.run_liftE, PyM.run_getDb, PyM.run_mkPure,
        DB.findRepo, refHandlerResult]

/-- One run of `_handle_repository` on a well-formed payload: for a tracked
repository it appends the `repository_{action}` history row, and when
`action == "deleted"` it then deletes the aggregate row, cascading over every
dependent row — including the row it just appended. -/
theorem run_handleRepository (now : Nat) (db : DB) (rname action sender : String) :
    (handleRepository (mkRepositoryPayload rname action sender) now).run db =
      match db.findRepoStr rname with
      | some row =>
          ((if action == "deleted" then
              DB.deleteRepoCascade { db with
                repository_events := db.repository_events ++
                  [{ id := db.next_id, repo_id := row.gitea_id,
                     event_type := "repository_" ++ action,
                     actor_id := .str sender, actor_username := .str sender,
                     occurred_at := now }],
                next_id := db.next_id + 1 } row.gitea_id
            else
              { db with
                repository_events := db.repository_events ++
                  [{ id := db.next_id, repo_id := row.gitea_id,
                     event_type := "repository_" ++ action,
                     actor_id := .str sender, actor_username := .str sender,
                     occurred_at := now }],
                next_id := db.next_id + 1 }),
           .ok (repositoryHandlerResult action sender))
      | none => (db, .ok (repositoryHandlerResult action sender)) := by
  unfold handleRepository mkRepositoryPayload
  cases hf : db.findRepoStr rname with
  | some row =>
      cases ha : (action == "deleted") with
      | true =>
          simp [hf, ha, Json.get, Json.lookup, Json.pyStr, Json.eqStr, PyM.bind_eq,
            PyM.pure_eq, PyM.run_bind, PyM.run_liftE, PyM.run_getDb, PyM.run_modifyDb,
            PyM.run_mkPure, PyM.run_insertRepositoryEvent, DB.findRepo,
            repositoryHandlerResult]
      | false =>
          simp [hf, ha, Json.get, Json.lookup, Json.pyStr, Json.eqStr, PyM.bind_eq,
            PyM.pure_eq, PyM.run_bind, PyM.run_liftE, PyM.run_getDb, PyM.run_modifyDb,
            PyM.run_mkPure, PyM.run_insertRepositoryEvent, DB.findRepo,
            repositoryHandlerResult]
  | none =>
      simp [hf, Json.get, Json.lookup, PyM.bind_eq, PyM.pure_eq,
        PyM.run_bind, PyM.run_liftE, PyM.run_getDb, PyM.run_mkPure,
        DB.findRepo, repositoryHandlerResult]

/-- One run of `_handle_fork` on a well-formed payload: for a tracked
repository it increments the clone counter and touches `last_activity_at`. -/
theorem run_handleFork (now : Nat) (db : DB) (rname forked sender : String) :
    (handleFork (mkForkPayload rname forked sender) now).run db =
      match db.findRepoStr rname with
      | some row =>
          (db.updateRepo row.gitea_id (forkAggUpdate now),
           .ok (forkHandlerResult rname forked sender))
      | none => (db, .ok (forkHandlerResult rname forked sender)) := by
  unfold handleFork mkForkPayload
  cases hf : db.findRepoStr rname with
  | some row =>
      simp [hf, Json.get, Json.lookup, PyM.bind_eq, PyM.pure_eq,
        PyM.run_bind, PyM.run_liftE, PyM.run_getDb, PyM.run_modifyDb, PyM.run_mkPure,
        DB.findRepo, forkHandlerResult]
  | none =>
      simp [hf, Json.get, Json.lookup, PyM.bind_eq, PyM.pure_eq,
        PyM.run_bind, PyM.run_liftE, PyM.run_getDb, PyM.run_mkPure,
        DB.findRepo, forkHandlerResult]

/-- The state projections of one `process_event` run for a push on a tracked
repository: the aggregate row receives the push mutation and exactly one
history row is appended, whether or not the summary loop later raises. -/
theorem run_processEvent_push_tracked (did : String) (now : Nat) (db : DB)
    (rname ref bsha asha pusherName : String) (commits : List Json) (row : RepoDataRow)
    (hfind : db.findRepoStr rname = some row) :
    ((((processEvent "push" did (mkPushPayload rname ref bsha asha commits pusherName)
        now).run db).1.repo_data
      = db.repo_data.map (fun r =>
          if r.gitea_id == rname then pushAggUpdate now commits.length r else r)) ∧
     (((processEvent "push" did (mkPushPayload rname ref bsha asha commits pusherName)
        now).run db).1.push_events
      = db.push_events ++
        [{ id := db.next_id + 1, repo_id := rname, pusher_id := .str pusherName,
           pusher_username := .str pusherName, ref := .str ref, before_sha := .str bsha,
           after_sha := .str asha, commit_count := commits.length, pushed_at := now }])) := by
  have hkey := findRepoStr_key db rname row hfind
  rw [processEvent_run_eq,
    run_stage1 "push" did (mkPushPayload rname ref bsha asha commits pusherName)
      (Json.obj [("full_name", Json.str rname)]) rname now db rfl rfl,
    hfind]
  have hfindA : (DB.findRepoStr { db with
      webhook_deliveries := db.webhook_deliveries ++
        [{ id := db.next_id, repo_id := row.gitea_id, event_type := "push",
           payload := mkPushPayload rname ref bsha asha commits pusherName,
           signature := did, delivered_at := now,
           processing_status := "pending", error_message := none }],
      next_id := db.next_id + 1 } rname) = some row := hfind
  simp only [dispatchEvent, beq_self_eq_true, if_true, run_handlePush, hfindA]
  cases hcs : commitSummaries (.arr commits) with
  | ok s =>
      simp [hcs, Except.map, markSuccessOpt, DB.markDeliverySuccess, DB.updateRepo, hkey]
  | error e =>
      simp [hcs, Except.map, markFailedOpt, DB.markDeliveryFailed, DB.updateRepo, hkey]

/-! ## Claim C5 — duplicate delivery is not suppressed -/

/-- The database state after reconciling the same payload twice in a row. -/
def afterTwoPushes (did1 did2 : String) (now1 now2 : Nat) (db : DB) (p : Json) : DB :=
  ((processEvent "push" did2 p now2).run
    (((processEvent "push" did1 p now1).run db).1)).1

/-- C5: reconciling the same push payload twice against a tracked repository
whose counter starts at `T` yields `T + 2 * len(commits)` and appends a
second PushEventRecord — duplicate delivery is explicitly not suppressed. -/
theorem c5_double_reconcile (did1 did2 : String) (now1 now2 : Nat) (db : DB)
    (rname ref bsha asha pusherName : String) (commits : List Json)
    (row : RepoDataRow) (T : Nat)
    (hfind : db.findRepoStr rname = some row) (hT : row.total_commits = some T) :
    (((afterTwoPushes did1 did2 now1 now2 db
        (mkPushPayload rname ref bsha asha commits pusherName)).findRepoStr rname).map
      (fun r => r.total_commits) = some (some (T + 2 * commits.length))) ∧
    ((afterTwoPushes did1 did2 now1 now2 db
        (mkPushPayload rname ref bsha asha commits pusherName)).push_events.countP
      (fun e => e.repo_id == rname)
      = db.push_events.countP (fun e => e.repo_id == rname) + 2) := by
  obtain ⟨h1r, h1p⟩ := run_processEvent_push_tracked did1 now1 db
    rname ref bsha asha pusherName commits row hfind
  have hupd : ∀ r, (pushAggUpdate now1 commits.length r).gitea_id = r.gitea_id :=
    fun r => rfl
  have hfind1 : (((processEvent "push" did1
      (mkPushPayload rname ref bsha asha commits pusherName) now1).run db).1.findRepoStr
        rname) = some (pushAggUpdate now1 commits.length row) := by
    unfold DB.findRepoStr
    rw [h1r, findRow_map_update db.repo_data rname _ hupd]
    have hfr : findRow rname db.repo_data = some row := hfind
    rw [hfr]
    rfl
  obtain ⟨h2r, h2p⟩ := run_processEvent_push_tracked did2 now2
    (((processEvent "push" did1 (mkPushPayload rname ref bsha asha commits pusherName)
      now1).run db).1)
    rname ref bsha asha pusherName commits (pushAggUpdate now1 commits.length row) hfind1
  unfold afterTwoPushes
  constructor
  · have hupd2 : ∀ r, (pushAggUpdate now2 commits.length r).gitea_id = r.gitea_id :=
      fun r => rfl
    unfold DB.findRepoStr
    rw [h2r, findRow_map_update _ rname _ hupd2]
    have hfr1 : findRow rname (((processEvent "push" did1
        (mkPushPayload rname ref bsha asha commits pusherName) now1).run db).1.repo_data)
        = some (pushAggUpdate now1 commits.length row) := hfind1
    rw [hfr1]
    show some (pushAggUpdate now2 commits.length (pushAggUpdate now1 commits.length row)).total_commits
      = some (some (T + 2 * commits.length))
    simp only [Option.map_some', pushAggUpdate, hT, Option.getD_some]
    have harith : T + commits.length + commits.length = T + 2 * commits.length := by omega
    simp [harith]
  · rw [h2p, h1p]
    simp [List.countP_append, List.countP_cons]

theorem c5_double_reconcile_witness :
    (((afterTwoPushes "d1" "d2" 5 6 dbAB
        (mkPushPayload "alice/beats" "refs/heads/main" "aaa" "bbb"
          [Json.obj [], Json.obj [], Json.obj []] "alice")).findRepoStr "alice/beats").map
      (fun r => r.total_commits) = some (some 6)) ∧
    ((afterTwoPushes "d1" "d2" 5 6 dbAB
        (mkPushPayload "alice/beats" "refs/heads/main" "aaa" "bbb"
          [Json.obj [], Json.obj [], Json.obj []] "alice")).push_events.countP
      (fun e => e.repo_id == "alice/beats") = 2) :=
  c5_double_reconcile "d1" "d2" 5 6 dbAB "alice/beats" "refs/heads/main" "aaa" "bbb"
    "alice" [Json.obj [], Json.obj [], Json.obj []] repoRowAB 0 rfl rfl

/-! ## Claim C6 — a delivery with no event-category header -/

/-- Map-with-mark leaves a ledger untouched when the marked id is fresh. -/
theorem map_mark_fresh (l : List WebhookDeliveryRow) (i : Nat)
    (f : WebhookDeliveryRow → WebhookDeliveryRow)
    (h : ∀ d ∈ l, d.id ≠ i) :
    l.map (fun d => if d.id = i then f d else d) = l := by
  induction l with
  | nil => rfl
  | cons a l ih =>
    have ha : ¬ (a.id = i) := h a (List.mem_cons_self a l)
    simp only [List.map_cons, if_neg ha]
    rw [ih (fun d hd => h d (List.mem_cons_of_mem a hd))]

/-- One run of `process_event` for the substituted category `"unknown"` on a
tracked repository: a delivery row is inserted, no handler runs, no aggregate
or history table changes, and the delivery is marked `success` with the
result reporting `ignored`. -/
theorem run_processEvent_unknown_tracked (did : String) (p rep : Json) (rname : String)
    (now : Nat) (db : DB) (row : RepoDataRow)
    (h1 : p.get "repository" (Json.obj []) = .ok rep)
    (h2 : rep.get "full_name" (Json.str "unknown") = .ok (Json.str rname))
    (hfind : db.findRepoStr rname = some row)
    (hfresh : ∀ d ∈ db.webhook_deliveries, d.id ≠ db.next_id) :
    (processEvent "unknown" did p now).run db =
      ({ db with
          webhook_deliveries := db.webhook_deliveries ++
            [{ id := db.next_id, repo_id := row.gitea_id, event_type := "unknown",
               payload := p, signature := did, delivered_at := now,
               processing_status := "success", error_message := none }],
          next_id := db.next_id + 1 },
       .ok (Json.objUpdate (mkBaseResult "unknown" did (some db.next_id) (.str rname) true)
         (Json.obj [("status", .str "ignored"),
                    ("reason", .str "unhandled event: unknown")]))) := by
  rw [processEvent_run_eq, run_stage1 "unknown" did p rep rname now db h1 h2, hfind]
  simp [dispatchEvent, PyM.pure_eq, PyM.run_mkPure, markSuccessOpt, DB.markDeliverySuccess,
    List.map_append]
  exact map_mark_fresh db.webhook_deliveries db.next_id
    (fun d => { d with processing_status := "success" }) hfresh

/-- Headers of a signed delivery that carries no event-category header. -/
def noEventHeaders : List (String × String) :=
  [("X-Gitea-Delivery", "d2"), ("X-Gitea-Signature", "deadbeef")]

/-- A payload carrying only the repository identifier. -/
def minimalPayload : Json := .obj [("repository", .obj [("full_name", .str "alice/beats")])]

/-- C6: counterexample.  A correctly signed delivery without the event-type
header is NOT rejected: the receiver substitutes the category `"unknown"`,
processing proceeds, a DeliveryRecord ledger row is written for the tracked
repository and marked `success`, and the response is `status: ok` with a
nested `ignored` result — not a rejection with a classification reason. -/
theorem c6_counterexample :
    ((match ((receiveGiteaWebhook stubHmac (fun _ => some minimalPayload) "sekret"
        noEventHeaders [91, 93] 7).run dbAB).2 with
      | .ok r => r.getField "status"
      | .error _ => none) = some (.str "ok")) ∧
    ((match ((receiveGiteaWebhook stubHmac (fun _ => some minimalPayload) "sekret"
        noEventHeaders [91, 93] 7).run dbAB).2 with
      | .ok r => (r.getField "result").bind (fun x => x.getField "status")
      | .error _ => none) = some (.str "ignored")) ∧
    ((match ((receiveGiteaWebhook stubHmac (fun _ => some minimalPayload) "sekret"
        noEventHeaders [91, 93] 7).run dbAB).2 with
      | .ok r => (r.getField "result").bind (fun x => x.getField "reason")
      | .error _ => none) = some (.str "unhandled event: unknown")) ∧
    (((receiveGiteaWebhook stubHmac (fun _ => some minimalPayload) "sekret"
        noEventHeaders [91, 93] 7).run dbAB).1.webhook_deliveries.map
      (fun d => (d.event_type, d.processing_status)) = [("unknown", "success")]) :=
  ⟨by rfl, by rfl, by rfl, by rfl⟩

/-- C6 (amended): when the event-category transport header is absent, the
receiver substitutes the category `"unknown"` and processing proceeds as an
unhandled event: for a tracked repository a DeliveryRecord is written and
marked `success`, no reconciler handler runs (no aggregate or history-table
effect), and the HTTP-200 response reports `status: ok` with a nested
`status: ignored`, `reason: unhandled event: unknown` result. -/
theorem c6_amended (hmacHex : String → List Nat → String)
    (jsonLoads : List Nat → Option Json) (secret : String)
    (headers : List (String × String)) (body : List Nat) (now : Nat) (db : DB)
    (did : String) (p rep : Json) (rname : String) (row : RepoDataRow)
    (hev : headerGet headers "X-Gitea-Event" = none)
    (hdid : headerOr headers "X-Gitea-Delivery" "unknown" = did)
    (hsig : validateSignature hmacHex secret body
      (headerOr headers "X-Gitea-Signature" "") = true)
    (hparse : jsonLoads body = some p)
    (h1 : p.get "repository" (Json.obj []) = .ok rep)
    (h2 : rep.get "full_name" (Json.str "unknown") = .ok (Json.str rname))
    (hfind : db.findRepoStr rname = some row)
    (hfresh : ∀ d ∈ db.webhook_deliveries, d.id ≠ db.next_id) :
    (receiveGiteaWebhook hmacHex jsonLoads secret headers body now).run db =
      ({ db with
          webhook_deliveries := db.webhook_deliveries ++
            [{ id := db.next_id, repo_id := row.gitea_id, event_type := "unknown",
               payload := p, signature := did, delivered_at := now,
               processing_status := "success", error_message := none }],
          next_id := db.next_id + 1 },
       .ok (Json.obj [("status", .str "ok"),
         ("result", Json.objUpdate
           (mkBaseResult "unknown" did (some db.next_id) (.str rname) true)
           (Json.obj [("status", .str "ignored"),
                      ("reason", .str "unhandled event: unknown")]))])) := by
  have hev2 : headerOr headers "X-Gitea-Event" "unknown" = "unknown" := by
    unfold headerOr
    rw [hev]
    rfl
  have hrec := run_receive_ok hmacHex jsonLoads secret headers body now db p hsig hparse
  rw [hev2, hdid,
    run_processEvent_unknown_tracked did p rep rname now db row h1 h2 hfind hfresh] at hrec
  rw [hrec]

theorem c6_amended_witness :
    (receiveGiteaWebhook stubHmac (fun _ => some minimalPayload) "sekret"
        noEventHeaders [91, 93] 7).run dbAB =
      ({ dbAB with
          webhook_deliveries := dbAB.webhook_deliveries ++
            [{ id := 1, repo_id := "alice/beats", event_type := "unknown",
               payload := minimalPayload, signature := "d2", delivered_at := 7,
               processing_status := "success", error_message := none }],
          next_id := 2 },
       .ok (Json.obj [("status", .str "ok"),
         ("result", Json.objUpdate
           (mkBaseResult "unknown" "d2" (some 1) (.str "alice/beats") true)
           (Json.obj [("status", .str "ignored"),
                      ("reason", .str "unhandled event: unknown")]))])) :=
  c6_amended stubHmac (fun _ => some minimalPayload) "sekret" noEventHeaders [91, 93] 7 dbAB
    "d2" minimalPayload (Json.obj [("full_name", Json.str "alice/beats")]) "alice/beats"
    repoRowAB rfl rfl rfl rfl rfl rfl rfl (by simp [dbAB])

/-! ## Per-category run lemmas on a tracked repository -/

/-- The state projections of one `process_event` run for a `create` event on
a tracked repository: a `{ref_type}_created` history row is appended and
`last_activity_at` is touched. -/
theorem run_processEvent_create_tracked (did : String) (now : Nat) (db : DB)
    (rname refType ref sender : String) (row : RepoDataRow)
    (hfind : db.findRepoStr rname = some row) :
    ((((processEvent "create" did (mkRefPayload rname refType ref sender) now).run db).1.repo_data
      = db.repo_data.map (fun r => if r.gitea_id == rname then touchActivity now r else r)) ∧
     (((processEvent "create" did (mkRefPayload rname refType ref sender) now).run db).1.repository_events
      = db.repository_events ++
        [{ id := db.next_id + 1, repo_id := rname, event_type := refType ++ "_created",
           actor_id := .str sender, actor_username := .str sender, occurred_at := now }])) := by
  have hkey := findRepoStr_key db rname row hfind
  rw [processEvent_run_eq, run_stage1 "create" did (mkRefPayload rname refType ref sender)
    (Json.obj [("full_name", Json.str rname)]) rname now db rfl rfl, hfind]
  have hfindA : (DB.findRepoStr { db with
      webhook_deliveries := db.webhook_deliveries ++
        [{ id := db.next_id, repo_id := rname, event_type := "create",
           payload := mkRefPayload rname refType ref sender, signature := did,
           delivered_at := now, processing_status := "pending", error_message := none }],
      next_id := db.next_id + 1 } rname) = some row := hfind
  simp [dispatchEvent, run_handleCreate, hfindA, markSuccessOpt, DB.markDeliverySuccess,
    DB.updateRepo, hkey]

/-- The state projections of one `process_event` run for a `delete` event on
a tracked repository: a `{ref_type}_deleted` history row is appended and the
aggregate row — in particular `last_activity_at` — is untouched. -/
theorem run_processEvent_delete_tracked (did : String) (now : Nat) (db : DB)
    (rname refType ref sender : String) (row : RepoDataRow)
    (hfind : db.findRepoStr rname = some row) :
    ((((processEvent "delete" did (mkRefPayload rname refType ref sender) now).run db).1.repo_data
      = db.repo_data) ∧
     (((processEvent "delete" did (mkRefPayload rname refType ref sender) now).run db).1.repository_events
      = db.repository_events ++
        [{ id := db.next_id + 1, repo_id := rname, event_type := refType ++ "_deleted",
           actor_id := .str sender, actor_username := .str sender, occurred_at := now }])) := by
  have hkey := findRepoStr_key db rname row hfind
  rw [processEvent_run_eq, run_stage1 "delete" did (mkRefPayload rname refType ref sender)
    (Json.obj [("full_name", Json.str rname)]) rname now db rfl rfl, hfind]
  have hfindA : (DB.findRepoStr { db with
      webhook_deliveries := db.webhook_deliveries ++
        [{ id := db.next_id, repo_id := rname, event_type := "delete",
           payload := mkRefPayload rname refType ref sender, signature := did,
           delivered_at := now, processing_status := "pending", error_message := none }],
      next_id := db.next_id + 1 } rname) = some row := hfind
  simp [dispatchEvent, run_handleDelete, hfindA, markSuccessOpt, DB.markDeliverySuccess, hkey]

/-- The state projections of one `process_event` run for a `fork` event on a
tracked repository: the clone counter is incremented and `last_activity_at`
is touched. -/
theorem run_processEvent_fork_tracked (did : String) (now : Nat) (db : DB)
    (rname forked sender : String) (row : RepoDataRow)
    (hfind : db.findRepoStr rname = some row) :
    (((processEvent "fork" did (mkForkPayload rname forked sender) now).run db).1.repo_data
      = db.repo_data.map (fun r => if r.gitea_id == rname then forkAggUpdate now r else r)) := by
  have hkey := findRepoStr_key db rname row hfind
  rw [processEvent_run_eq, run_stage1 "fork" did (mkForkPayload rname forked sender)
    (Json.obj [("full_name", Json.str rname)]) rname now db rfl rfl, hfind]
  have hfindA : (DB.findRepoStr { db with
      webhook_deliveries := db.webhook_deliveries ++
        [{ id := db.next_id, repo_id := rname, event_type := "fork",
           payload := mkForkPayload rname forked sender, signature := did,
           delivered_at := now, processing_status := "pending", error_message := none }],
      next_id := db.next_id + 1 } rname) = some row := hfind
  simp [dispatchEvent, run_handleFork, hfindA, markSuccessOpt, DB.markDeliverySuccess,
    DB.updateRepo, hkey]

/-- The state projections of one `process_event` run for a `repository` event
with `action = "renamed"` on a tracked repository: a `repository_renamed`
history row is appended and the aggregate row is untouched. -/
theorem run_processEvent_renamed_tracked (did : String) (now : Nat) (db : DB)
    (rname sender : String) (row : RepoDataRow)
    (hfind : db.findRepoStr rname = some row) :
    ((((processEvent "repository" did (mkRepositoryPayload rname "renamed" sender) now).run db).1.repo_data
      = db.repo_data) ∧
     (((processEvent "repository" did (mkRepositoryPayload rname "renamed" sender) now).run db).1.repository_events
      = db.repository_events ++
        [{ id := db.next_id + 1, repo_id := rname, event_type := "repository_renamed",
           actor_id := .str sender, actor_username := .str sender, occurred_at := now }])) := by
  have hkey := findRepoStr_key db rname row hfind
  rw [processEvent_run_eq, run_stage1 "repository" did (mkRepositoryPayload rname "renamed" sender)
    (Json.obj [("full_name", Json.str rname)]) rname now db rfl rfl, hfind]
  have hfindA : (DB.findRepoStr { db with
      webhook_deliveries := db.webhook_deliveries ++
        [{ id := db.next_id, repo_id := rname, event_type := "repository",
           payload := mkRepositoryPayload rname "renamed" sender, signature := did,
           delivered_at := now, processing_status := "pending", error_message := none }],
      next_id := db.next_id + 1 } rname) = some row := hfind
  simp [dispatchEvent, run_handleRepository, hfindA, markSuccessOpt, DB.markDeliverySuccess, hkey]

/-! ## Claim C7 — which events touch `last_activity_at` -/

/-- A tracked aggregate row whose `last_activity_at` is already set. -/
def repoRowAB5 : RepoDataRow :=
  { gitea_id := "alice/beats", owner_id := "alice", clone_count := some 0,
    last_push_at := none, total_commits := some 0, last_activity_at := some 5 }

/-- A database tracking exactly `alice/beats` with `last_activity_at = 5`. -/
def dbAB5 : DB :=
  { repo_data := [repoRowAB5], webhook_deliveries := [], push_events := [],
    repository_events := [], webhook_configs := [], next_id := 1 }

/-- C7: counterexample.  A `delete` event reconciled against a tracked
repository at time 99 is processed (status `processed`), yet the aggregate
row keeps `last_activity_at = 5` — `_handle_delete` never touches the
activity timestamp, contradicting the claim for the `delete` category. -/
theorem c7_counterexample :
    ((((processEvent "delete" "d1" (mkRefPayload "alice/beats" "branch" "refs/heads/x" "bob")
        99).run dbAB5).1.findRepoStr "alice/beats").map (fun r => r.last_activity_at)
      = some (some 5)) ∧
    ((match ((processEvent "delete" "d1" (mkRefPayload "alice/beats" "branch" "refs/heads/x"
        "bob") 99).run dbAB5).2 with
      | .ok r => r.getField "status"
      | .error _ => none) = some (.str "processed")) :=
  ⟨by rfl, by rfl⟩

/-- C7 (amended): reconciled against a tracked repository, `push`, `create`
and `fork` events set `last_activity_at` to the current time, while `delete`
events and `repository` events (here `action = "renamed"`; `action =
"deleted"` removes the row altogether) leave the activity timestamp exactly
as it was. -/
theorem c7_amended (did : String) (now : Nat) (db : DB)
    (rname refType ref sender bsha asha pusherName forked : String)
    (commits : List Json) (row : RepoDataRow)
    (hfind : db.findRepoStr rname = some row) :
    ((((processEvent "push" did (mkPushPayload rname ref bsha asha commits pusherName)
        now).run db).1.findRepoStr rname).map (fun r => r.last_activity_at)
      = some (some now)) ∧
    ((((processEvent "create" did (mkRefPayload rname refType ref sender)
        now).run db).1.findRepoStr rname).map (fun r => r.last_activity_at)
      = some (some now)) ∧
    ((((processEvent "fork" did (mkForkPayload rname forked sender)
        now).run db).1.findRepoStr rname).map (fun r => r.last_activity_at)
      = some (some now)) ∧
    ((((processEvent "delete" did (mkRefPayload rname refType ref sender)
        now).run db).1.findRepoStr rname).map (fun r => r.last_activity_at)
      = some row.last_activity_at) ∧
    ((((processEvent "repository" did (mkRepositoryPayload rname "renamed" sender)
        now).run db).1.findRepoStr rname).map (fun r => r.last_activity_at)
      = some row.last_activity_at) := by
  have hfr : findRow rname db.repo_data = some row := hfind
  refine ⟨?_, ?_, ?_, ?_, ?_⟩
  · obtain ⟨h1r, _⟩ := run_processEvent_push_tracked did now db rname ref bsha asha
      pusherName commits row hfind
    unfold DB.findRepoStr
    rw [h1r, findRow_map_update db.repo_data rname (pushAggUpdate now commits.length)
      (fun r => rfl), hfr]
    rfl
  · obtain ⟨h1r, _⟩ := run_processEvent_create_tracked did now db rname refType ref sender
      row hfind
    unfold DB.findRepoStr
    rw [h1r, findRow_map_update db.repo_data rname (touchActivity now) (fun r => rfl), hfr]
    rfl
  · have h1r := run_processEvent_fork_tracked did now db rname forked sender row hfind
    unfold DB.findRepoStr
    rw [h1r, findRow_map_update db.repo_data rname (forkAggUpdate now) (fun r => rfl), hfr]
    rfl
  · obtain ⟨h1r, _⟩ := run_processEvent_delete_tracked did now db rname refType ref sender
      row hfind
    unfold DB.findRepoStr
    rw [h1r, hfr]
    rfl
  · obtain ⟨h1r, _⟩ := run_processEvent_renamed_tracked did now db rname sender row hfind
    unfold DB.findRepoStr
    rw [h1r, hfr]
    rfl

theorem c7_amended_witness :
    ((((processEvent "push" "d1" (mkPushPayload "alice/beats" "refs/heads/x" "aaa" "bbb"
        [] "alice") 99).run dbAB5).1.findRepoStr "alice/beats").map
      (fun r => r.last_activity_at) = some (some 99)) ∧
    ((((processEvent "create" "d1" (mkRefPayload "alice/beats" "branch" "refs/heads/x"
        "bob") 99).run dbAB5).1.findRepoStr "alice/beats").map
      (fun r => r.last_activity_at) = some (some 99)) ∧
    ((((processEvent "fork" "d1" (mkForkPayload "alice/beats" "bob/beats" "bob")
        99).run dbAB5).1.findRepoStr "alice/beats").map
      (fun r => r.last_activity_at) = some (some 99)) ∧
    ((((processEvent "delete" "d1" (mkRefPayload "alice/beats" "branch" "refs/heads/x"
        "bob") 99).run dbAB5).1.findRepoStr "alice/beats").map
      (fun r => r.last_activity_at) = some (some 5)) ∧
    ((((processEvent "repository" "d1" (mkRepositoryPayload "alice/beats" "renamed" "bob")
        99).run dbAB5).1.findRepoStr "alice/beats").map
      (fun r => r.last_activity_at) = some (some 5)) :=
  c7_amended "d1" 99 dbAB5 "alice/beats" "branch" "refs/heads/x" "bob" "aaa" "bbb"
    "alice" "bob/beats" [] repoRowAB5 rfl

/-! ## Claims C8 and C10 — repository-deletion cascade -/

/-- Rows surviving the cascade filter never match the deleted key. -/
theorem findRow_filter_ne (l : List RepoDataRow) (s : String) :
    findRow s (l.filter (fun r => r.gitea_id != s)) = none := by
  induction l with
  | nil => rfl
  | cons a l ih =>
    by_cases h : a.gitea_id = s
    · simp [List.filter_cons, h, ih]
    · simp [List.filter_cons, h, findRow, ih]

/-- Push rows surviving the cascade filter never match the deleted key. -/
theorem pushFilter_ne_eq_nil (l : List PushEventRow) (s : String) :
    (l.filter (fun e => e.repo_id != s)).filter (fun e => e.repo_id == s) = [] := by
  induction l with
  | nil => rfl
  | cons a l ih =>
    by_cases h : a.repo_id = s
    · simp [List.filter_cons, h, ih]
    · simp [List.filter_cons, h, ih]

/-- Lifecycle rows surviving the cascade filter never match the deleted key. -/
theorem eventFilter_ne_eq_nil (l : List RepositoryEventRow) (s : String) :
    (l.filter (fun e => e.repo_id != s)).filter (fun e => e.repo_id == s) = [] := by
  induction l with
  | nil => rfl
  | cons a l ih =>
    by_cases h : a.repo_id = s
    · simp [List.filter_cons, h, ih]
    · simp [List.filter_cons, h, ih]

/-- Delivery rows surviving the cascade filter never match the deleted key. -/
theorem delivFilter_ne_eq_nil (l : List WebhookDeliveryRow) (s : String) :
    (l.filter (fun d => d.repo_id != s)).filter (fun d => d.repo_id == s) = [] := by
  induction l with
  | nil => rfl
  | cons a l ih =>
    by_cases h : a.repo_id = s
    · simp [List.filter_cons, h, ih]
    · simp [List.filter_cons, h, ih]

/-- Marking a delivery status preserves which rows match a repository key. -/
theorem delivFilter_markmap_nil (l : List WebhookDeliveryRow) (i : Nat) (s : String)
    (h : l.filter (fun d => d.repo_id == s) = []) :
    (l.map (fun d => if d.id == i then { d with processing_status := "success" } else d)).filter
      (fun d => d.repo_id == s) = [] := by
  rw [List.filter_eq_nil_iff] at h ⊢
  intro d hd
  obtain ⟨c, hc, rfl⟩ := List.mem_map.mp hd
  have hcs := h c hc
  by_cases hi : c.id = i
  · simpa [hi] using hcs
  · simpa [hi] using hcs

/-- The facts about one `process_event` run for a `repository` event with
`action = "deleted"` on a tracked repository: the aggregate row is gone and
no dependent row — delivery, push, or lifecycle, including the rows staged
during this very call — survives the cascade; the result reports
`processed`. -/
theorem afterRepoDeleted_facts (did sender : String) (now : Nat) (db : DB)
    (rname : String) (row : RepoDataRow)
    (hfind : db.findRepoStr rname = some row) :
    ((((processEvent "repository" did (mkRepositoryPayload rname "deleted" sender)
        now).run db).1.findRepoStr rname) = none) ∧
    ((((processEvent "repository" did (mkRepositoryPayload rname "deleted" sender)
        now).run db).1.push_events.filter (fun e => e.repo_id == rname)) = []) ∧
    ((((processEvent "repository" did (mkRepositoryPayload rname "deleted" sender)
        now).run db).1.repository_events.filter (fun e => e.repo_id == rname)) = []) ∧
    ((((processEvent "repository" did (mkRepositoryPayload rname "deleted" sender)
        now).run db).1.webhook_deliveries.filter (fun d => d.repo_id == rname)) = []) ∧
    ((((processEvent "repository" did (mkRepositoryPayload rname "deleted" sender)
        now).run db).2)
      = .ok (Json.objUpdate (mkBaseResult "repository" did (some db.next_id) (.str rname) true)
          (repositoryHandlerResult "deleted" sender))) := by
  have hkey := findRepoStr_key db rname row hfind
  rw [processEvent_run_eq, run_stage1 "repository" did
    (mkRepositoryPayload rname "deleted" sender)
    (Json.obj [("full_name", Json.str rname)]) rname now db rfl rfl, hfind]
  have hfr : findRow rname db.repo_data = some row := hfind
  simp only [dispatchEvent, run_handleRepository, DB.findRepoStr, hfr, hkey,
    beq_self_eq_true, if_true, String.reduceBEq, Bool.false_eq_true, if_false,
    markSuccessOpt, DB.markDeliverySuccess, DB.deleteRepoCascade]
  refine ⟨?_, ?_, ?_, ?_, ?_⟩
  · exact findRow_filter_ne db.repo_data rname
  · exact pushFilter_ne_eq_nil db.push_events rname
  · exact eventFilter_ne_eq_nil _ rname
  · exact delivFilter_markmap_nil _ db.next_id rname (delivFilter_ne_eq_nil _ rname)
  · trivial

/-- C8: reconciling a `repository` event with `action = "deleted"` against a
tracked repository removes the RepositoryAggregate row and every dependent
row — all N PushEventRecord rows, all M DeliveryRecord rows and all lifecycle
rows for that repository — via the cascade, and the event is processed. -/
theorem c8_delete_cascade (did sender : String) (now : Nat) (db : DB)
    (rname : String) (row : RepoDataRow)
    (hfind : db.findRepoStr rname = some row) :
    ((((processEvent "repository" did (mkRepositoryPayload rname "deleted" sender)
        now).run db).1.findRepoStr rname) = none) ∧
    ((((processEvent "repository" did (mkRepositoryPayload rname "deleted" sender)
        now).run db).1.push_events.filter (fun e => e.repo_id == rname)) = []) ∧
    ((((processEvent "repository" did (mkRepositoryPayload rname "deleted" sender)
        now).run db).1.repository_events.filter (fun e => e.repo_id == rname)) = []) ∧
    ((((processEvent "repository" did (mkRepositoryPayload rname "deleted" sender)
        now).run db).1.webhook_deliveries.filter (fun d => d.repo_id == rname)) = []) := by
  obtain ⟨h1, h2, h3, h4, _⟩ := afterRepoDeleted_facts did sender now db rname row hfind
  exact ⟨h1, h2, h3, h4⟩

/-- An old delivery row for the rich scenario. -/
def oldDelivery : WebhookDeliveryRow :=
  { id := 3, repo_id := "alice/beats", event_type := "push", payload := .obj [],
    signature := "d0", delivered_at := 1, processing_status := "success",
    error_message := none }

/-- An old push row for the rich scenario. -/
def oldPush : PushEventRow :=
  { id := 4, repo_id := "alice/beats", pusher_id := .str "alice",
    pusher_username := .str "alice", ref := .str "refs/heads/main",
    before_sha := .str "aaa", after_sha := .str "bbb", commit_count := 2, pushed_at := 1 }

/-- An old lifecycle row for the rich scenario. -/
def oldEvent : RepositoryEventRow :=
  { id := 5, repo_id := "alice/beats", event_type := "branch_created",
    actor_id := .str "alice", actor_username := .str "alice", occurred_at := 2 }

/-- A repository with history: one delivery, one push and one lifecycle row. -/
def dbRich : DB :=
  { repo_data := [repoRowAB], webhook_deliveries := [oldDelivery],
    push_events := [oldPush], repository_events := [oldEvent],
    webhook_configs := [], next_id := 10 }

theorem c8_delete_cascade_witness :
    ((((processEvent "repository" "d9" (mkRepositoryPayload "alice/beats" "deleted" "bob")
        77).run dbRich).1.findRepoStr "alice/beats") = none) ∧
    ((((processEvent "repository" "d9" (mkRepositoryPayload "alice/beats" "deleted" "bob")
        77).run dbRich).1.push_events.filter (fun e => e.repo_id == "alice/beats")) = []) ∧
    ((((processEvent "repository" "d9" (mkRepositoryPayload "alice/beats" "deleted" "bob")
        77).run dbRich).1.repository_events.filter (fun e => e.repo_id == "alice/beats")) = []) ∧
    ((((processEvent "repository" "d9" (mkRepositoryPayload "alice/beats" "deleted" "bob")
        77).run dbRich).1.webhook_deliveries.filter (fun d => d.repo_id == "alice/beats")) = []) :=
  c8_delete_cascade "d9" "bob" 77 dbRich "alice/beats" repoRowAB rfl

/-- C10: the `repository_deleted` lifecycle record appended during the same
call references the aggregate row the call then deletes, so the cascade
removes it in the same transaction: after the call, the events read endpoint
returns an empty list for that repository, even though the deletion was
reconciled (`processed`). -/
theorem c10_deletion_record_not_observable (did sender : String) (now lim : Nat) (db : DB)
    (owner repo : String) (row : RepoDataRow)
    (hfind : db.findRepoStr (owner ++ "/" ++ repo) = some row) :
    ((getRepoEvents owner repo lim (((processEvent "repository" did
        (mkRepositoryPayload (owner ++ "/" ++ repo) "deleted" sender) now).run db).1)).getField
      "events" = some (.arr [])) ∧
    ((getRepoEvents owner repo lim (((processEvent "repository" did
        (mkRepositoryPayload (owner ++ "/" ++ repo) "deleted" sender) now).run db).1)).getField
      "count" = some (.num 0)) ∧
    ((((processEvent "repository" did (mkRepositoryPayload (owner ++ "/" ++ repo) "deleted"
        sender) now).run db).2)
      = .ok (Json.objUpdate (mkBaseResult "repository" did (some db.next_id)
          (.str (owner ++ "/" ++ repo)) true)
          (repositoryHandlerResult "deleted" sender))) := by
  obtain ⟨_, _, h3, _, h5⟩ := afterRepoDeleted_facts did sender now db
    (owner ++ "/" ++ repo) row hfind
  refine ⟨?_, ?_, h5⟩
  · simp [getRepoEvents, h3, sortDesc, Json.getField, Json.lookup]
  · simp [getRepoEvents, h3, sortDesc, Json.getField, Json.lookup]

theorem c10_deletion_record_not_observable_witness :
    ((getRepoEvents "alice" "beats" 20 (((processEvent "repository" "d9"
        (mkRepositoryPayload ("alice" ++ "/" ++ "beats") "deleted" "bob") 77).run
        dbRich).1)).getField "events" = some (.arr [])) ∧
    ((getRepoEvents "alice" "beats" 20 (((processEvent "repository" "d9"
        (mkRepositoryPayload ("alice" ++ "/" ++ "beats") "deleted" "bob") 77).run
        dbRich).1)).getField "count" = some (.num 0)) ∧
    ((((processEvent "repository" "d9" (mkRepositoryPayload ("alice" ++ "/" ++ "beats")
        "deleted" "bob") 77).run dbRich).2)
      = .ok (Json.objUpdate (mkBaseResult "repository" "d9" (some 10)
          (.str ("alice" ++ "/" ++ "beats")) true)
          (repositoryHandlerResult "deleted" "bob"))) :=
  c10_deletion_record_not_observable "d9" "bob" 77 20 dbRich "alice" "beats" repoRowAB rfl

/-! ## Claim C9 — registration reports success despite a failed local save -/

/-- C9: when the remote `create_webhook` call reports success and the local
`WebhookConfig` persistence raises, `setup_webhook_for_repo` still returns
`success = True` with the remote webhook id and a warning describing the
failed save. -/
theorem c9_registration_best_effort (baseUrl secret owner repo : String)
    (kvs : List (String × Json)) (e : PyError) (db : DB)
    (hsucc : ((Json.lookup kvs "success").getD .null).truthy = true) :
    ((setupWebhookForRepo baseUrl secret owner repo (.obj kvs) (some e)).run db).2 =
      .ok (Json.obj [("success", .bool true),
        ("webhook_id", (Json.lookup kvs "webhook_id").getD .null),
        ("url", .str (baseUrl ++ "/api/webhooks/gitea")),
        ("events", subscribedEvents),
        ("warning", .str ("Webhook created but config save failed: " ++ e.message))]) := by
  unfold setupWebhookForRepo
  simp only [PyM.bind_eq, PyM.pure_eq, PyM.run_bind, PyM.run_liftE, PyM.run_mkPure,
    PyM.run_tryCatch, PyM.run_raise, PyM.run_insertWebhookConfig, Json.get, hsucc,
    Bool.not_true, Bool.false_eq_true, if_false]

/-- The remote result used by the C9 witness scenario. -/
def c9Remote : List (String × Json) := [("success", .bool true), ("webhook_id", .num 77)]

theorem c9_registration_best_effort_witness :
    ((setupWebhookForRepo "https://api.soundhaus.dev" "sekret" "alice" "beats"
        (.obj c9Remote) (some (.typeError "db down"))).run dbAB).2 =
      .ok (Json.obj [("success", .bool true),
        ("webhook_id", (Json.lookup c9Remote "webhook_id").getD .null),
        ("url", .str ("https://api.soundhaus.dev" ++ "/api/webhooks/gitea")),
        ("events", subscribedEvents),
        ("warning", .str ("Webhook created but config save failed: " ++
          (PyError.typeError "db down").message))]) :=
  c9_registration_best_effort "https://api.soundhaus.dev" "sekret" "alice" "beats"
    c9Remote (.typeError "db down") dbAB rfl

end SoundHaus
